import Mathlib

/-
Verification of the filesystem command module (src/src-tauri/src/commands/fs.rs).

The module has three stateless Tauri commands: check_path, get_home_dir and
open_in_explorer.  The operating system's view of the filesystem is modelled
as an abstract `Filesystem` assigning each path string an optional entry kind
(`none` models "does not exist", which in Rust also covers paths whose
metadata cannot be read: `Path::exists` returns false on any stat error).
Process spawning is modelled by a `World` carrying a spawn oracle that says
whether the OS accepts a given spawn request; the embedding of
open_in_explorer returns, next to the Rust `Result`, the list of child
processes that were actually created.  The code never waits on a spawned
child, so the model has no notion of waiting at all.
-/

deriving instance DecidableEq for Except

namespace ProjelliFs

/-- Kind of an existing filesystem entry, as reported by stat-like queries:
a regular file, a directory, or anything else (special file, socket, ...). -/
inductive EntryKind
  | file
  | dir
  | other
deriving DecidableEq, Repr

/-- Abstract snapshot of the filesystem: what the metadata query returns for
each path string.  `none` means the path does not exist or cannot be stat-ed
(Rust folds stat errors into a negative answer). -/
structure Filesystem where
  stat : String → Option EntryKind

/-- `Path::exists`: true iff the metadata query succeeds. -/
def pathExists (fs : Filesystem) (p : String) : Bool :=
  (fs.stat p).isSome

/-- `Path::is_file`: true iff the entry exists and is a regular file. -/
def isFile (fs : Filesystem) (p : String) : Bool :=
  fs.stat p = some EntryKind.file

/-- `Path::is_dir`: true iff the entry exists and is a directory. -/
def isDir (fs : Filesystem) (p : String) : Bool :=
  fs.stat p = some EntryKind.dir

/-- Rust struct `PathExistsResult` (serialized with fields
exists / isFile / isDirectory). -/
structure PathExistsResult where
  exists' : Bool
  is_file : Bool
  is_directory : Bool
deriving DecidableEq, Repr

/-- Embedding of `check_path` from fs.rs: report existence, and when the
path exists also whether it is a regular file and whether it is a directory. -/
def check_path (fs : Filesystem) (path : String) : Except String PathExistsResult :=
  if pathExists fs path then
    .ok { exists' := true, is_file := isFile fs path, is_directory := isDir fs path }
  else
    .ok { exists' := false, is_file := false, is_directory := false }

/-- Lossy-UTF8 helpers: is `b` a UTF-8 continuation byte (0x80..0xBF)? -/
def isCont (b : Nat) : Bool :=
  decide (0x80 ≤ b ∧ b ≤ 0xBF)

/-- Valid range of the second byte of a three-byte sequence headed by `b0`
(0xE0 forbids overlong encodings, 0xED forbids surrogates). -/
def threeByteSecondOk (b0 b1 : Nat) : Bool :=
  if b0 = 0xE0 then decide (0xA0 ≤ b1 ∧ b1 ≤ 0xBF)
  else if b0 = 0xED then decide (0x80 ≤ b1 ∧ b1 ≤ 0x9F)
  else isCont b1

/-- Valid range of the second byte of a four-byte sequence headed by `b0`
(0xF0 forbids overlong encodings, 0xF4 caps the code point at 0x10FFFF). -/
def fourByteSecondOk (b0 b1 : Nat) : Bool :=
  if b0 = 0xF0 then decide (0x90 ≤ b1 ∧ b1 ≤ 0xBF)
  else if b0 = 0xF4 then decide (0x80 ≤ b1 ∧ b1 ≤ 0x8F)
  else isCont b1

/-- The Unicode replacement character U+FFFD. -/
def replChar : Char := Char.ofNat 0xFFFD

/-- Lossy UTF-8 decoding of a byte sequence, as performed by Rust's
`String::from_utf8_lossy` (and hence `OsStr::to_string_lossy` on Unix):
each maximal valid prefix of an invalid sequence is replaced by one
U+FFFD replacement character (the WHATWG "maximal subpart" rule). -/
def utf8Lossy : List Nat → List Char
  | [] => []
  | b0 :: r =>
    if b0 < 0x80 then
      Char.ofNat b0 :: utf8Lossy r
    else if 0xC2 ≤ b0 ∧ b0 ≤ 0xDF then
      match r with
      | [] => [replChar]
      | b1 :: r1 =>
        if isCont b1 then
          Char.ofNat ((b0 - 0xC0) * 0x40 + (b1 - 0x80)) :: utf8Lossy r1
        else
          replChar :: utf8Lossy (b1 :: r1)
    else if 0xE0 ≤ b0 ∧ b0 ≤ 0xEF then
      match r with
      | [] => [replChar]
      | b1 :: r1 =>
        if threeByteSecondOk b0 b1 then
          match r1 with
          | [] => [replChar]
          | b2 :: r2 =>
            if isCont b2 then
              Char.ofNat ((b0 - 0xE0) * 0x1000 + (b1 - 0x80) * 0x40 + (b2 - 0x80))
                :: utf8Lossy r2
            else
              replChar :: utf8Lossy (b2 :: r2)
        else
          replChar :: utf8Lossy (b1 :: r1)
    else if 0xF0 ≤ b0 ∧ b0 ≤ 0xF4 then
      match r with
      | [] => [replChar]
      | b1 :: r1 =>
        if fourByteSecondOk b0 b1 then
          match r1 with
          | [] => [replChar]
          | b2 :: r2 =>
            if isCont b2 then
              match r2 with
              | [] => [replChar]
              | b3 :: r3 =>
                if isCont b3 then
                  Char.ofNat ((b0 - 0xF0) * 0x40000 + (b1 - 0x80) * 0x1000
                      + (b2 - 0x80) * 0x40 + (b3 - 0x80))
                    :: utf8Lossy r3
                else
                  replChar :: utf8Lossy (b3 :: r3)
            else
              replChar :: utf8Lossy (b2 :: r2)
        else
          replChar :: utf8Lossy (b1 :: r1)
    else
      replChar :: utf8Lossy r

/-- Strict UTF-8 validity of a byte sequence (same case analysis as
`utf8Lossy`, failing instead of substituting U+FFFD). -/
def validUtf8 : List Nat → Bool
  | [] => true
  | b0 :: r =>
    if b0 < 0x80 then validUtf8 r
    else if 0xC2 ≤ b0 ∧ b0 ≤ 0xDF then
      match r with
      | [] => false
      | b1 :: r1 => isCont b1 && validUtf8 r1
    else if 0xE0 ≤ b0 ∧ b0 ≤ 0xEF then
      match r with
      | [] => false
      | b1 :: r1 =>
        threeByteSecondOk b0 b1 &&
          match r1 with
          | [] => false
          | b2 :: r2 => isCont b2 && validUtf8 r2
    else if 0xF0 ≤ b0 ∧ b0 ≤ 0xF4 then
      match r with
      | [] => false
      | b1 :: r1 =>
        fourByteSecondOk b0 b1 &&
          match r1 with
          | [] => false
          | b2 :: r2 =>
            isCont b2 &&
              match r2 with
              | [] => false
              | b3 :: r3 => isCont b3 && validUtf8 r3
    else false

/-- `OsStr::to_string_lossy().to_string()` on a Unix byte path. -/
def toStringLossy (bytes : List Nat) : String :=
  ⟨utf8Lossy bytes⟩

/-- Embedding of `get_home_dir` from fs.rs.  `home` is what
`dirs::home_dir()` reports: `none` when the platform cannot determine the
invoking user's home directory, otherwise the raw (possibly non-UTF-8)
bytes of that directory's path. -/
def get_home_dir (home : Option (List Nat)) : Except String String :=
  match home.map toStringLossy with
  | some s => .ok s
  | none => .error "Could not determine home directory"

/-- Rust `Path::parent` on Unix path strings: the path without its final
component; `none` when the path is empty or consists only of a root.
(Faithful to std for paths without interior `.` components, which std's
component normalization would additionally drop.) -/
def rustParent (p : String) : Option String :=
  let rev := p.data.reverse
  let rev1 := rev.dropWhile (fun c => c = '/')
  if rev1 = [] then
    none
  else
    let rev2 := rev1.dropWhile (fun c => c ≠ '/')
    if rev2 = [] then
      some ""
    else
      let rev3 := rev2.dropWhile (fun c => c = '/')
      if rev3 = [] then
        some "/"
      else
        some ⟨rev3.reverse⟩

/-- The target operating system selected at build time by the `cfg`
attributes in fs.rs. -/
inductive TargetOS
  | windows
  | macos
  | linux
deriving DecidableEq, Repr

/-- The file-browser launcher binary picked by the `cfg` block. -/
def launcherFor : TargetOS → String
  | .windows => "explorer"
  | .macos => "open"
  | .linux => "xdg-open"

/-- The per-platform error prefix used when the spawn fails. -/
def spawnFailPrefix : TargetOS → String
  | .windows => "Failed to open explorer: "
  | .macos => "Failed to open finder: "
  | .linux => "Failed to open file manager: "

/-- One child process created by `Command::spawn`: the program and its
argument list. -/
structure SpawnRecord where
  program : String
  args : List String
deriving DecidableEq, Repr

/-- The world open_in_explorer runs in: the filesystem snapshot plus a spawn
oracle telling whether the OS accepts a given spawn request (`Except.error e`
models `Command::spawn` failing with OS error message `e`, in which case no
child process is created). -/
structure World where
  fs : Filesystem
  spawn : String → List String → Except String Unit

/-- Embedding of `open_in_explorer` from fs.rs.  Returns the Rust
`Result<(), String>` together with the list of child processes actually
spawned during the call (the code never waits on them). -/
def open_in_explorer (os : TargetOS) (w : World) (path : String) :
    Except String Unit × List SpawnRecord :=
  if pathExists w.fs path = false then
    (.error ("Path does not exist: " ++ path), [])
  else
    match (if isFile w.fs path then rustParent path else some path) with
    | none => (.error "Could not get parent directory", [])
    | some target =>
      match w.spawn (launcherFor os) [target] with
      | .ok _ => (.ok (), [{ program := launcherFor os, args := [target] }])
      | .error e => (.error (spawnFailPrefix os ++ e), [])

/-- Modelled from the spec: the target-resolution rule of §4.3 step 2 —
"If the path denotes a regular file, resolve its parent directory as the
target; if the path denotes a directory, the target is the path itself; if
the path is neither, treat it as its own target." -/
def specTarget (fs : Filesystem) (p : String) : Option String :=
  match fs.stat p with
  | some EntryKind.file => rustParent p
  | _ => some p

/-- A concrete filesystem for witnesses: `/tmp` is a directory holding the
regular file `/tmp/a.txt`; nothing else exists. -/
def fsA : Filesystem :=
  ⟨fun s => if s = "/tmp/a.txt" then some EntryKind.file
            else if s = "/tmp" then some EntryKind.dir
            else none⟩

/-- A witness world over `fsA` whose spawn oracle always succeeds. -/
def wA : World :=
  ⟨fsA, fun _ _ => .ok ()⟩

/-- A degenerate witness filesystem in which the root path `/` is reported
as a regular file (so its parent is unresolvable). -/
def fsRootFile : Filesystem :=
  ⟨fun s => if s = "/" then some EntryKind.file else none⟩

/-- A witness world over `fsRootFile` whose spawn oracle always succeeds. -/
def wRootFile : World :=
  ⟨fsRootFile, fun _ _ => .ok ()⟩

/-- The `if is_file then parent else path` selection in open_in_explorer
computes exactly the spec's target-resolution rule. -/
theorem target_if_eq_specTarget (fs : Filesystem) (p : String) :
    (if isFile fs p then rustParent p else some p) = specTarget fs p := by
  unfold specTarget isFile
  rcases fs.stat p with _ | k
  · simp
  · cases k <;> simp

/-- Lossy decoding of a byte sequence that is not valid UTF-8 always emits
at least one U+FFFD replacement character. -/
theorem replChar_mem_utf8Lossy_of_invalid :
    ∀ l : List Nat, validUtf8 l = false → replChar ∈ utf8Lossy l := by
  intro l
  induction l using utf8Lossy.induct with
  | case1 =>
    intro h
    rw [validUtf8.eq_def] at h
    simp at h
  | case2 b0 r hlt ih =>
    intro h
    rw [validUtf8.eq_def] at h
    simp only [if_pos hlt] at h
    rw [utf8Lossy.eq_def]
    simp only [if_pos hlt, List.mem_cons]
    exact Or.inr (ih h)
  | case3 b0 hnl h2 =>
    intro h
    rw [utf8Lossy.eq_def]
    simp [if_neg hnl, if_pos h2]
  | case4 b0 hnl h2 b1 r1 hc ih =>
    intro h
    rw [validUtf8.eq_def] at h
    simp only [if_neg hnl, if_pos h2, hc, Bool.true_and] at h
    rw [utf8Lossy.eq_def]
    simp only [if_neg hnl, if_pos h2, if_pos hc, List.mem_cons]
    exact Or.inr (ih h)
  | case5 b0 hnl h2 b1 r1 hnc ih =>
    intro h
    rw [utf8Lossy.eq_def]
    simp [if_neg hnl, if_pos h2, if_neg hnc]
  | case6 b0 hnl hn2 h3 =>
    intro h
    rw [utf8Lossy.eq_def]
    simp [if_neg hnl, if_neg hn2, if_pos h3]
  | case7 b0 hnl hn2 h3 b1 hok2 =>
    intro h
    rw [utf8Lossy.eq_def]
    simp [if_neg hnl, if_neg hn2, if_pos h3, if_pos hok2]
  | case8 b0 hnl hn2 h3 b1 hok2 b2 r2 hc2 ih =>
    intro h
    rw [validUtf8.eq_def] at h
    simp only [if_neg hnl, if_neg hn2, if_pos h3, hok2, hc2, Bool.true_and] at h
    rw [utf8Lossy.eq_def]
    simp only [if_neg hnl, if_neg hn2, if_pos h3, if_pos hok2, if_pos hc2, List.mem_cons]
    exact Or.inr (ih h)
  | case9 b0 hnl hn2 h3 b1 hok2 b2 r2 hnc2 ih =>
    intro h
    rw [utf8Lossy.eq_def]
    simp [if_neg hnl, if_neg hn2, if_pos h3, if_pos hok2, if_neg hnc2]
  | case10 b0 hnl hn2 h3 b1 r1 hnok2 ih =>
    intro h
    rw [utf8Lossy.eq_def]
    simp [if_neg hnl, if_neg hn2, if_pos h3, if_neg hnok2]
  | case11 b0 hnl hn2 hn3 h4 =>
    intro h
    rw [utf8Lossy.eq_def]
    simp [if_neg hnl, if_neg hn2, if_neg hn3, if_pos h4]
  | case12 b0 hnl hn2 hn3 h4 b1 hok2 =>
    intro h
    rw [utf8Lossy.eq_def]
    simp [if_neg hnl, if_neg hn2, if_neg hn3, if_pos h4, if_pos hok2]
  | case13 b0 hnl hn2 hn3 h4 b1 hok2 b2 hc2 =>
    intro h
    rw [utf8Lossy.eq_def]
    simp [if_neg hnl, if_neg hn2, if_neg hn3, if_pos h4, if_pos hok2, if_pos hc2]
  | case14 b0 hnl hn2 hn3 h4 b1 hok2 b2 hc2 b3 r3 hc3 ih =>
    intro h
    rw [validUtf8.eq_def] at h
    simp only [if_neg hnl, if_neg hn2, if_neg hn3, if_pos h4, hok2, hc2, hc3,
      Bool.true_and] at h
    rw [utf8Lossy.eq_def]
    simp only [if_neg hnl, if_neg hn2, if_neg hn3, if_pos h4, if_pos hok2, if_pos hc2,
      if_pos hc3, List.mem_cons]
    exact Or.inr (ih h)
  | case15 b0 hnl hn2 hn3 h4 b1 hok2 b2 hc2 b3 r3 hnc3 ih =>
    intro h
    rw [utf8Lossy.eq_def]
    simp [if_neg hnl, if_neg hn2, if_neg hn3, if_pos h4, if_pos hok2, if_pos hc2,
      if_neg hnc3]
  | case16 b0 hnl hn2 hn3 h4 b1 hok2 b2 r2 hnc2 ih =>
    intro h
    rw [utf8Lossy.eq_def]
    simp [if_neg hnl, if_neg hn2, if_neg hn3, if_pos h4, if_pos hok2, if_neg hnc2]
  | case17 b0 hnl hn2 hn3 h4 b1 r1 hnok2 ih =>
    intro h
    rw [utf8Lossy.eq_def]
    simp [if_neg hnl, if_neg hn2, if_neg hn3, if_pos h4, if_neg hnok2]
  | case18 b0 r hnl hn2 hn3 hn4 ih =>
    intro h
    rw [utf8Lossy.eq_def]
    simp [if_neg hnl, if_neg hn2, if_neg hn3, if_neg hn4]

/-- C1: for every existing path, the directory handed to the spawned
launcher follows the resolution rule: a regular file resolves to its parent
directory, a directory to itself, anything else to itself (`specTarget`). -/
theorem open_in_explorer_target_resolution (os : TargetOS) (w : World) (p : String)
    (hex : pathExists w.fs p = true) :
    ((open_in_explorer os w p).2.all
       fun r => decide (some r.args = (specTarget w.fs p).map fun t => [t])) = true := by
  rcases hspec : specTarget w.fs p with _ | t
  · simp [open_in_explorer, target_if_eq_specTarget, hspec, hex]
  · rcases hs : w.spawn (launcherFor os) [t] with u | e <;>
      simp [open_in_explorer, target_if_eq_specTarget, hspec, hex, hs]

/-- C1 witness: over the concrete world `wA`, revealing the regular file
/tmp/a.txt spawns the launcher on its parent directory /tmp. -/
theorem open_in_explorer_target_resolution_witness :
    pathExists wA.fs "/tmp/a.txt" = true ∧
    ((open_in_explorer .linux wA "/tmp/a.txt").2.all
       fun r => decide (some r.args = (specTarget wA.fs "/tmp/a.txt").map fun t => [t]))
      = true :=
  ⟨by decide, open_in_explorer_target_resolution .linux wA "/tmp/a.txt" (by decide)⟩

/-- C2: for every nonexistent path, open_in_explorer fails with the
not-found error naming the missing path and spawns no process. -/
theorem open_in_explorer_not_found (os : TargetOS) (w : World) (p : String)
    (h : pathExists w.fs p = false) :
    open_in_explorer os w p = (.error ("Path does not exist: " ++ p), []) := by
  simp [open_in_explorer, h]

/-- C2 witness: /missing does not exist in `wA`, so revealing it fails with
the not-found error and spawns nothing. -/
theorem open_in_explorer_not_found_witness :
    pathExists wA.fs "/missing" = false ∧
    open_in_explorer .windows wA "/missing"
      = (.error ("Path does not exist: " ++ "/missing"), []) :=
  ⟨by decide, open_in_explorer_not_found .windows wA "/missing" (by decide)⟩

/-- C3: check_path agrees with the filesystem's classification: a regular
file reports {true, true, false}, a directory {true, false, true}, and a
nonexistent path {false, false, false}. -/
theorem check_path_matches_classification (fs : Filesystem) (p : String) :
    (fs.stat p = some EntryKind.file →
      check_path fs p = .ok { exists' := true, is_file := true, is_directory := false }) ∧
    (fs.stat p = some EntryKind.dir →
      check_path fs p = .ok { exists' := true, is_file := false, is_directory := true }) ∧
    (fs.stat p = none →
      check_path fs p = .ok { exists' := false, is_file := false, is_directory := false }) := by
  refine ⟨fun h => ?_, fun h => ?_, fun h => ?_⟩ <;>
    simp [check_path, pathExists, isFile, isDir, h]

/-- C3 witness: the three classifications evaluated on the concrete
filesystem `fsA`. -/
theorem check_path_matches_classification_witness :
    check_path fsA "/tmp/a.txt"
        = .ok { exists' := true, is_file := true, is_directory := false } ∧
    check_path fsA "/tmp"
        = .ok { exists' := true, is_file := false, is_directory := true } ∧
    check_path fsA "/missing"
        = .ok { exists' := false, is_file := false, is_directory := false } :=
  ⟨(check_path_matches_classification fsA "/tmp/a.txt").1 (by decide),
   (check_path_matches_classification fsA "/tmp").2.1 (by decide),
   (check_path_matches_classification fsA "/missing").2.2 (by decide)⟩

/-- C4: check_path never returns an error: every input, over every
filesystem snapshot (including ones where the path is unreadable, i.e.
stat yields none), produces an Ok result. -/
theorem check_path_never_errors (fs : Filesystem) (p : String) :
    ∃ r, check_path fs p = .ok r := by
  unfold check_path
  split <;> exact ⟨_, rfl⟩

/-- C5: the PathStatus invariant: whenever check_path reports
exists = false, it also reports is_file = false and is_directory = false. -/
theorem check_path_invariant (fs : Filesystem) (p : String) (r : PathExistsResult)
    (h : check_path fs p = .ok r) (hne : r.exists' = false) :
    r.is_file = false ∧ r.is_directory = false := by
  unfold check_path at h
  split at h
  · injection h with h
    subst h
    simp at hne
  · injection h with h
    subst h
    exact ⟨rfl, rfl⟩

/-- C5 witness: the invariant instantiated at the nonexistent path
/missing over `fsA`. -/
theorem check_path_invariant_witness :
    check_path fsA "/missing"
        = .ok { exists' := false, is_file := false, is_directory := false } ∧
    ((⟨false, false, false⟩ : PathExistsResult).is_file = false ∧
      (⟨false, false, false⟩ : PathExistsResult).is_directory = false) :=
  ⟨by decide, check_path_invariant fsA "/missing" ⟨false, false, false⟩ (by decide) (by decide)⟩

/-- C6: an existing path that is a regular file with no resolvable parent
makes open_in_explorer fail with the no-parent error, with no process
spawned. -/
theorem open_in_explorer_no_parent (os : TargetOS) (w : World) (p : String)
    (hex : pathExists w.fs p = true) (hf : isFile w.fs p = true)
    (hp : rustParent p = none) :
    open_in_explorer os w p = (.error "Could not get parent directory", []) := by
  simp [open_in_explorer, hex, hf, hp]

/-- C6 witness: in the degenerate world where / is reported as a regular
file, revealing / fails with the no-parent error and spawns nothing. -/
theorem open_in_explorer_no_parent_witness :
    (pathExists wRootFile.fs "/" = true ∧ isFile wRootFile.fs "/" = true ∧
      rustParent "/" = none) ∧
    open_in_explorer .macos wRootFile "/" = (.error "Could not get parent directory", []) :=
  ⟨⟨by decide, by decide, by decide⟩,
   open_in_explorer_no_parent .macos wRootFile "/" (by decide) (by decide) (by decide)⟩

/-- C7: every successful call spawns exactly one process: the build-time
platform launcher, with the resolved target directory as its sole
argument. -/
theorem open_in_explorer_spawns_once (os : TargetOS) (w : World) (p : String)
    (hok : (open_in_explorer os w p).1 = .ok ()) :
    (specTarget w.fs p).map (fun t => [SpawnRecord.mk (launcherFor os) [t]])
      = some (open_in_explorer os w p).2 := by
  rcases hpe : pathExists w.fs p with _ | _
  · simp [open_in_explorer, hpe] at hok
  · rcases hspec : specTarget w.fs p with _ | t
    · simp [open_in_explorer, target_if_eq_specTarget, hspec, hpe] at hok
    · rcases hs : w.spawn (launcherFor os) [t] with e | u
      · simp [open_in_explorer, target_if_eq_specTarget, hspec, hpe, hs] at hok
      · simp [open_in_explorer, target_if_eq_specTarget, hspec, hpe, hs]

/-- C7 witness: the successful call on /tmp/a.txt in `wA` spawns exactly
the singleton xdg-open process pointed at /tmp. -/
theorem open_in_explorer_spawns_once_witness :
    (open_in_explorer .linux wA "/tmp/a.txt").1 = .ok () ∧
    (specTarget wA.fs "/tmp/a.txt").map
        (fun t => [SpawnRecord.mk (launcherFor .linux) [t]])
      = some (open_in_explorer .linux wA "/tmp/a.txt").2 :=
  ⟨by decide, open_in_explorer_spawns_once .linux wA "/tmp/a.txt" (by decide)⟩

/-- C8: get_home_dir errs exactly when the platform reports no home
directory, and otherwise returns the home path as a (lossily decoded)
plain string. -/
theorem get_home_dir_contract (home : Option (List Nat)) :
    (home = none → get_home_dir home = .error "Could not determine home directory") ∧
    (∀ b, home = some b → get_home_dir home = .ok (toStringLossy b)) := by
  constructor
  · rintro rfl
    rfl
  · rintro b rfl
    rfl

/-- C8 witness: both sides of the contract at concrete inputs ("home" is
the byte string 0x68 0x6F 0x6D 0x65). -/
theorem get_home_dir_contract_witness :
    get_home_dir none = .error "Could not determine home directory" ∧
    get_home_dir (some [0x68, 0x6F, 0x6D, 0x65])
      = .ok (toStringLossy [0x68, 0x6F, 0x6D, 0x65]) :=
  ⟨(get_home_dir_contract none).1 rfl,
   (get_home_dir_contract (some [0x68, 0x6F, 0x6D, 0x65])).2
     [0x68, 0x6F, 0x6D, 0x65] rfl⟩

/-- C9: a home directory path that is not valid UTF-8 still succeeds,
lossily decoded, with at least one U+FFFD replacement character in the
result. -/
theorem get_home_dir_lossy (home : Option (List Nat)) (b : List Nat)
    (h1 : home = some b) (h2 : validUtf8 b = false) :
    get_home_dir home = .ok (toStringLossy b) ∧ replChar ∈ (toStringLossy b).data := by
  subst h1
  exact ⟨rfl, replChar_mem_utf8Lossy_of_invalid b h2⟩

/-- C9 witness: the single invalid byte 0xFF decodes to the replacement
character rather than making get_home_dir fail. -/
theorem get_home_dir_lossy_witness :
    validUtf8 [0xFF] = false ∧
    (get_home_dir (some [0xFF]) = .ok (toStringLossy [0xFF]) ∧
      replChar ∈ (toStringLossy [0xFF]).data) :=
  ⟨by decide, get_home_dir_lossy (some [0xFF]) [0xFF] rfl (by decide)⟩

/-- C10: the empty path (which the OS always reports as nonexistent, since
stat on an empty path fails) yields the not-found error and no spawn. -/
theorem open_in_explorer_empty_path (os : TargetOS) (w : World)
    (h : w.fs.stat "" = none) :
    open_in_explorer os w "" = (.error ("Path does not exist: " ++ ""), []) := by
  simp [open_in_explorer, pathExists, h]

/-- C10 witness: the empty path in `wA` (whose stat of "" is none) fails
with the not-found error and spawns nothing. -/
theorem open_in_explorer_empty_path_witness :
    wA.fs.stat "" = none ∧
    open_in_explorer .linux wA "" = (.error ("Path does not exist: " ++ ""), []) :=
  ⟨by decide, open_in_explorer_empty_path .linux wA (by decide)⟩

end ProjelliFs
